import Mathlib

/-!
Verification of the AR viewer in `src/app/components/ARScene.tsx`.

The embedding models, over exact reals:
  * the marker position computed by the `RelativeObject` component
    (polar distance/bearing to Cartesian offset, fixed scale factor 0.5);
  * the camera-rotation effect of `ARScene` (degrees to radians, Euler
    angles with the beta − 90° offset, the three.js XYZ Euler-to-quaternion
    conversion, outright replacement of the camera quaternion);
  * the device-orientation handler (a sample is stored iff all three of
    alpha/beta/gamma are non-null) and the one-shot permission flow;
  * the marker visibility set and its single mutation, `handleObjectClick`.
-/

namespace ARGames

noncomputable section

open Real

/-! ## Quaternions and the three.js Euler conversion -/

/-- A quaternion with components in the order three.js stores them. -/
structure Quat where
  qx : ℝ
  qy : ℝ
  qz : ℝ
  qw : ℝ

/-- `THREE.Quaternion.setFromEuler` for a `THREE.Euler(ex, ey, ez)` with the
default rotation order XYZ (the order used by `new THREE.Euler(a, b, c)`). -/
def setFromEulerXYZ (ex ey ez : ℝ) : Quat :=
  let c1 := Real.cos (ex / 2)
  let c2 := Real.cos (ey / 2)
  let c3 := Real.cos (ez / 2)
  let s1 := Real.sin (ex / 2)
  let s2 := Real.sin (ey / 2)
  let s3 := Real.sin (ez / 2)
  { qx := s1 * c2 * c3 + c1 * s2 * s3
    qy := c1 * s2 * c3 - s1 * c2 * s3
    qz := c1 * c2 * s3 + s1 * s2 * c3
    qw := c1 * c2 * c3 - s1 * s2 * s3 }

/-- The identity quaternion (no rotation): x = y = z = 0, w = 1. -/
def identityQuat : Quat := ⟨0, 0, 0, 1⟩

/-! ## Marker placement (`RelativeObject`, ARScene.tsx lines 379–385) -/

/-- The fixed scale factor declared inside `RelativeObject`: `const scaleFactor = 0.5`. -/
def scaleFactor : ℝ := 0.5

/-- The group position `[x, 0, z]` computed by `RelativeObject` from its
`meters` and `direction` props:
`directionRad = direction * π / 180`,
`x = sin(directionRad) * meters * scaleFactor`,
`z = -cos(directionRad) * meters * scaleFactor`. -/
def relativeObjectPosition (meters direction : ℝ) : ℝ × ℝ × ℝ :=
  let directionRad := direction * Real.pi / 180
  (Real.sin directionRad * meters * scaleFactor, 0,
   -Real.cos directionRad * meters * scaleFactor)

/-- The spec formula `polarToOffset(distanceMeters, bearingDegrees, scale)`,
written from the spec text for comparison with `relativeObjectPosition`:
x = sin(bearingRad)·distance·scale, y = 0, z = −cos(bearingRad)·distance·scale. -/
def polarToOffsetSpec (distanceMeters bearingDegrees scale : ℝ) : ℝ × ℝ × ℝ :=
  let bearingRad := bearingDegrees * Real.pi / 180
  (Real.sin bearingRad * distanceMeters * scale, 0,
   -Real.cos bearingRad * distanceMeters * scale)

/-! ## Camera rotation effect (ARScene.tsx lines 189–202) -/

/-- The device-orientation state held by `ARScene` (degrees). -/
structure DeviceOrientationState where
  alpha : ℝ
  beta : ℝ
  gamma : ℝ

/-- The initial orientation state: `{alpha: 0, beta: 0, gamma: 0}`. -/
def initialOrientation : DeviceOrientationState := ⟨0, 0, 0⟩

/-- The quaternion built by the camera-rotation effect:
convert each angle to radians, then
`setFromEuler(new THREE.Euler(betaRad - π/2, alphaRad, gammaRad))`. -/
def cameraQuaternion (alpha beta gamma : ℝ) : Quat :=
  let alphaRad := alpha * Real.pi / 180
  let betaRad := beta * Real.pi / 180
  let gammaRad := gamma * Real.pi / 180
  setFromEulerXYZ (betaRad - Real.pi / 2) alphaRad gammaRad

/-- The whole effect: `camera.quaternion.copy(quaternion)` overwrites the
previous camera quaternion with the freshly computed one. -/
def updateCameraRotation (o : DeviceOrientationState) (_prevCamera : Quat) : Quat :=
  cameraQuaternion o.alpha o.beta o.gamma

/-! ## Orientation samples (`handleOrientation`, ARScene.tsx lines 124–132) -/

/-- A raw `DeviceOrientationEvent`: each angle may be null. -/
structure OrientationSample where
  alpha : Option ℝ
  beta : Option ℝ
  gamma : Option ℝ

/-- `handleOrientation`: if all of `event.alpha`, `event.beta`, `event.gamma`
are non-null, store the triple as the new state; otherwise leave the state
unchanged. -/
def handleOrientation (event : OrientationSample) (s : DeviceOrientationState) :
    DeviceOrientationState :=
  match event.alpha, event.beta, event.gamma with
  | some a, some b, some g => ⟨a, b, g⟩
  | _, _, _ => s

/-! ## Permission flow (`requestOrientationPermission`, ARScene.tsx lines 140–165) -/

/-- How the `requestPermission()` promise behaves when it exists. -/
inductive PermissionOutcome where
  | resolves (s : String)
  | throws
  deriving DecidableEq

/-- The platform environment seen by the permission flow:
whether `window.DeviceOrientationEvent.requestPermission` is a function,
and what awaiting it does. -/
structure OrientationEnv where
  hasRequestPermission : Bool
  outcome : PermissionOutcome

/-- `permissionGranted` / listener-attachment state produced by the flow;
`setupOrientationListener` sets both. -/
structure PermState where
  listenerAttached : Bool
  permissionGranted : Bool
  deriving DecidableEq

/-- `requestOrientationPermission`: if a `requestPermission` function exists,
await it; on `"granted"` call `setupOrientationListener`; on any other
resolution only log; on a thrown error call `setupOrientationListener` as the
fallback for devices without orientation sensors. Without a
`requestPermission` function, call `setupOrientationListener` directly. -/
def requestOrientationPermission (env : OrientationEnv) : PermState :=
  if env.hasRequestPermission then
    match env.outcome with
    | .resolves s => if s = "granted" then ⟨true, true⟩ else ⟨false, false⟩
    | .throws => ⟨true, true⟩
  else ⟨true, true⟩

/-- The effect runs once on mount (empty dependency array) and nothing else
writes `permissionGranted`, so the permission state at any later step `t` of
the session is the state the one-shot flow produced. -/
def permissionStateAt (env : OrientationEnv) (_t : ℕ) : PermState :=
  requestOrientationPermission env

/-- What `ARScene` renders, decided by the two readiness gates
(ARScene.tsx lines 205–219). -/
inductive SceneDisplay where
  | waitingForOrientation
  | gettingLocation
  | markersScene
  deriving DecidableEq

/-- The early-return chain of `ARScene`: without `permissionGranted` show
"Waiting for orientation permission...", then without a location show
"Getting your location...", else render the markers. -/
def sceneDisplay (permissionGranted : Bool) (hasLocation : Bool) : SceneDisplay :=
  if !permissionGranted then .waitingForOrientation
  else if !hasLocation then .gettingLocation
  else .markersScene

end

/-! ## Marker catalog and visibility set (ARScene.tsx lines 98–120, 221–354) -/

/-- A marker as configured in `ARScene`: its id and the `meters` / `direction`
props passed to `RelativeObject` (distances and bearings are whole numbers in
the catalog, kept as rationals so the catalog stays computable). -/
structure Marker where
  id : String
  meters : ℚ
  direction : ℚ
  deriving DecidableEq

/-- The ten `RelativeObject` instances rendered by `ARScene`. -/
def markers : List Marker :=
  [⟨"obj1", 1, 0⟩, ⟨"obj2", 8, 45⟩, ⟨"obj3", 3, 90⟩, ⟨"obj4", 6, 135⟩,
   ⟨"obj5", 4, 180⟩, ⟨"obj6", 10, 225⟩, ⟨"obj7", 5, 270⟩, ⟨"obj8", 7, 315⟩,
   ⟨"obj9", 12, 30⟩, ⟨"obj10", 2, 150⟩]

/-- The initial `visibleObjects` state: `new Set(["obj1", ..., "obj10"])`. -/
def initialVisibleObjects : Finset String :=
  {"obj1", "obj2", "obj3", "obj4", "obj5", "obj6", "obj7", "obj8", "obj9", "obj10"}

/-- `handleObjectClick`: copy the previous set with `objectId` deleted. -/
def handleObjectClick (objectId : String) (prev : Finset String) : Finset String :=
  prev.erase objectId

/-- The markers a render pass draws: each catalog entry is wrapped in
`visibleObjects.has(id) && <RelativeObject .../>`, so exactly the entries
whose id is in the set are rendered. -/
def renderedMarkers (visible : Finset String) : List Marker :=
  markers.filter fun m => decide (m.id ∈ visible)

/-- A session's visibility set after a sequence of clicks. -/
def applyClicks (clicks : List String) (s : Finset String) : Finset String :=
  clicks.foldl (fun acc objectId => handleObjectClick objectId acc) s

/-! ## Helper lemmas -/

/-- At the rest pose (alpha 0, beta 90, gamma 0) the beta − 90° offset makes
every Euler angle zero, so the camera quaternion is the identity. -/
lemma cameraQuaternion_rest_pose : cameraQuaternion 0 90 0 = identityQuat := by
  have h1 : ((90 : ℝ) * Real.pi / 180 - Real.pi / 2) / 2 = 0 := by ring
  have h2 : ((0 : ℝ) * Real.pi / 180) / 2 = 0 := by ring
  simp only [cameraQuaternion, setFromEulerXYZ, identityQuat, h1, h2,
    Real.sin_zero, Real.cos_zero]
  norm_num

/-- At bearing 0 the marker offset is straight down the −z axis. -/
lemma relativeObjectPosition_bearing_zero (d : ℝ) :
    relativeObjectPosition d 0 = (0, 0, -(d * scaleFactor)) := by
  have h : (0 : ℝ) * Real.pi / 180 = 0 := by ring
  simp only [relativeObjectPosition, h, Real.sin_zero, Real.cos_zero]
  norm_num

/-- `applyClicks` never adds elements: the set after any click sequence is a
subset of the set before. -/
lemma applyClicks_subset (clicks : List String) (s : Finset String) :
    applyClicks clicks s ⊆ s := by
  induction clicks generalizing s with
  | nil => exact Finset.Subset.refl s
  | cons i rest ih =>
    exact (ih (handleObjectClick i s)).trans (Finset.erase_subset i s)

/-! ## Claims -/

/-- C1: for every distance `d` and bearing `b`, the marker placement computes
x = sin(b·π/180)·d·s, y = 0, z = −cos(b·π/180)·d·s with the fixed scale
s = 0.5; the scale factor is the constant 0.5 applied uniformly (the
component takes no per-call scale). -/
theorem relativeObjectPosition_matches_polarToOffset (d b : ℝ) :
    relativeObjectPosition d b =
      (Real.sin (b * Real.pi / 180) * d * 0.5, 0,
       -Real.cos (b * Real.pi / 180) * d * 0.5) ∧
    relativeObjectPosition d b = polarToOffsetSpec d b scaleFactor ∧
    scaleFactor = 0.5 :=
  ⟨rfl, rfl, rfl⟩

/-- C2: the camera update converts alpha/beta/gamma from degrees to radians,
builds the quaternion from the Euler angles (beta·π/180 − π/2, alpha·π/180,
gamma·π/180) in the library's fixed XYZ order, and replaces the previous
camera quaternion outright: the result does not depend on the previous
rotation. -/
theorem updateCameraRotation_replaces_with_euler
    (o : DeviceOrientationState) (p q : Quat) :
    updateCameraRotation o p =
      setFromEulerXYZ (o.beta * Real.pi / 180 - Real.pi / 2)
        (o.alpha * Real.pi / 180) (o.gamma * Real.pi / 180) ∧
    updateCameraRotation o p = updateCameraRotation o q :=
  ⟨rfl, rfl⟩

/-- C4: the camera-rotation function at (alpha 0, beta 90, gamma 0) yields the
identity quaternion — the beta − 90° offset cancels the pitch. -/
theorem orientationToCameraRotation_rest_identity :
    cameraQuaternion 0 90 0 = identityQuat :=
  cameraQuaternion_rest_pose

/-- C3: marker placement and camera orientation are consistent: at device
orientation (alpha 0, beta 90, gamma 0) the camera quaternion is the identity,
and for every distance d ≥ 0 a marker at bearing 0 lies on the camera's
forward −z axis: its offset is (0, 0, −t) with t ≥ 0. -/
theorem marker_ahead_when_facing_north (d : ℝ) (hd : 0 ≤ d) :
    cameraQuaternion 0 90 0 = identityQuat ∧
    ∃ t, 0 ≤ t ∧ relativeObjectPosition d 0 = (0, 0, -t) := by
  refine ⟨cameraQuaternion_rest_pose, d * scaleFactor, ?_, relativeObjectPosition_bearing_zero d⟩
  have hs : (0 : ℝ) ≤ scaleFactor := by norm_num [scaleFactor]
  exact mul_nonneg hd hs

/-- Witness for C3 at the concrete distance d = 2. -/
theorem marker_ahead_when_facing_north_witness :
    (0 : ℝ) ≤ 2 ∧
    (cameraQuaternion 0 90 0 = identityQuat ∧
     ∃ t, 0 ≤ t ∧ relativeObjectPosition 2 0 = (0, 0, -t)) :=
  ⟨by norm_num, marker_ahead_when_facing_north 2 (by norm_num)⟩

/-- C6: the polar-to-offset computation is periodic with period 360, for every
real distance and every real bearing (bearings outside [0, 360) are ordinary
inputs: the function is total on ℝ, with no normalization and no error path). -/
theorem relativeObjectPosition_periodic (d b : ℝ) :
    relativeObjectPosition d (b + 360) = relativeObjectPosition d b := by
  have h : (b + 360) * Real.pi / 180 = b * Real.pi / 180 + 2 * Real.pi := by ring
  simp only [relativeObjectPosition, h, Real.sin_add_two_pi, Real.cos_add_two_pi]

/-! ## Further helper lemmas (trigonometry at the catalog bearings) -/

lemma bearing90_rad : (90 : ℝ) * Real.pi / 180 = Real.pi / 2 := by ring

lemma bearing180_rad : (180 : ℝ) * Real.pi / 180 = Real.pi := by ring

lemma bearing225_rad : (225 : ℝ) * Real.pi / 180 = Real.pi + Real.pi / 4 := by ring

lemma sin_bearing225 : Real.sin ((225 : ℝ) * Real.pi / 180) = -(Real.sqrt 2 / 2) := by
  rw [bearing225_rad, Real.sin_add, Real.sin_pi, Real.cos_pi, Real.sin_pi_div_four,
    Real.cos_pi_div_four]
  ring

lemma cos_bearing225 : Real.cos ((225 : ℝ) * Real.pi / 180) = -(Real.sqrt 2 / 2) := by
  rw [bearing225_rad, Real.cos_add, Real.sin_pi, Real.cos_pi, Real.sin_pi_div_four,
    Real.cos_pi_div_four]
  ring

lemma sqrt_two_bounds : 1.414 < Real.sqrt 2 ∧ Real.sqrt 2 < 1.4143 := by
  have h := Real.sq_sqrt (show (0 : ℝ) ≤ 2 by norm_num)
  have hn := Real.sqrt_nonneg 2
  constructor <;> nlinarith [h, hn]

/-- C5: cardinal values of the offset. Bearing 0 gives (0, 0, −d·scale), in
particular (0, 0, −0.5) at distance 1; bearing 90 gives x = d·scale, z = 0;
bearing 180 gives x = 0, z = d·scale; and distance 10, bearing 225 gives an
offset within 0.01 of (−3.54, 0, 3.54). -/
theorem relativeObjectPosition_cardinal_values (d : ℝ) :
    relativeObjectPosition d 0 = (0, 0, -(d * scaleFactor)) ∧
    relativeObjectPosition 1 0 = (0, 0, -0.5) ∧
    (relativeObjectPosition d 90).1 = d * scaleFactor ∧
    (relativeObjectPosition d 90).2.2 = 0 ∧
    (relativeObjectPosition d 180).1 = 0 ∧
    (relativeObjectPosition d 180).2.2 = d * scaleFactor ∧
    |(relativeObjectPosition 10 225).1 - (-3.54)| < 0.01 ∧
    (relativeObjectPosition 10 225).2.1 = 0 ∧
    |(relativeObjectPosition 10 225).2.2 - 3.54| < 0.01 := by
  obtain ⟨hlo, hhi⟩ := sqrt_two_bounds
  refine ⟨relativeObjectPosition_bearing_zero d, ?_, ?_, ?_, ?_, ?_, ?_, rfl, ?_⟩
  · rw [relativeObjectPosition_bearing_zero 1]
    norm_num [scaleFactor, Prod.ext_iff]
  · simp only [relativeObjectPosition, bearing90_rad, Real.sin_pi_div_two]
    ring
  · simp only [relativeObjectPosition, bearing90_rad, Real.cos_pi_div_two]
    ring
  · simp only [relativeObjectPosition, bearing180_rad, Real.sin_pi]
    ring
  · simp only [relativeObjectPosition, bearing180_rad, Real.cos_pi]
    ring
  · simp only [relativeObjectPosition, sin_bearing225, scaleFactor]
    rw [abs_lt]
    constructor <;> nlinarith [hlo, hhi]
  · simp only [relativeObjectPosition, cos_bearing225, scaleFactor]
    rw [abs_lt]
    constructor <;> nlinarith [hlo, hhi]

/-- C7: `handleOrientation` stores a sample as the new state iff all three of
alpha/beta/gamma are non-null; a sample with any null component leaves the
state unchanged; and the default state the tracker degrades to is
{alpha 0, beta 0, gamma 0}. -/
theorem handleOrientation_stores_iff_nonnull (e : OrientationSample)
    (s : DeviceOrientationState) :
    (∀ a b g, e.alpha = some a → e.beta = some b → e.gamma = some g →
      handleOrientation e s = ⟨a, b, g⟩) ∧
    ((e.alpha = none ∨ e.beta = none ∨ e.gamma = none) →
      handleOrientation e s = s) ∧
    initialOrientation = ⟨0, 0, 0⟩ := by
  refine ⟨?_, ?_, rfl⟩
  · intro a b g ha hb hg
    simp [handleOrientation, ha, hb, hg]
  · intro h
    obtain ⟨ea, eb, eg⟩ := e
    cases ea <;> cases eb <;> cases eg <;> simp_all [handleOrientation]

/-- Witness for C7: a fully non-null sample is stored; a sample with a null
alpha leaves the state unchanged. -/
theorem handleOrientation_stores_iff_nonnull_witness :
    handleOrientation ⟨some 10, some 20, some 30⟩ ⟨1, 2, 3⟩ = ⟨10, 20, 30⟩ ∧
    handleOrientation ⟨none, some 20, some 30⟩ ⟨1, 2, 3⟩ = ⟨1, 2, 3⟩ :=
  ⟨(handleOrientation_stores_iff_nonnull ⟨some 10, some 20, some 30⟩ ⟨1, 2, 3⟩).1
      10 20 30 rfl rfl rfl,
   (handleOrientation_stores_iff_nonnull ⟨none, some 20, some 30⟩ ⟨1, 2, 3⟩).2.1
      (Or.inl rfl)⟩

/-- C8 counterexample: when the permission request throws — the code's own
fallback path "for devices without orientation sensors" — and likewise when no
`requestPermission` function exists, `setupOrientationListener` IS called: the
listener is attached, `permissionGranted` becomes true, and the scene is not
in the waiting state. This contradicts the claim's sensors-absent case. -/
theorem absent_sensors_attach_listener :
    (requestOrientationPermission ⟨true, PermissionOutcome.throws⟩).listenerAttached = true ∧
    (requestOrientationPermission ⟨true, PermissionOutcome.throws⟩).permissionGranted = true ∧
    (requestOrientationPermission ⟨false, PermissionOutcome.throws⟩).listenerAttached = true ∧
    (requestOrientationPermission ⟨false, PermissionOutcome.throws⟩).permissionGranted = true ∧
    sceneDisplay (requestOrientationPermission ⟨true, PermissionOutcome.throws⟩).permissionGranted false ≠
      SceneDisplay.waitingForOrientation := by
  decide

/-- C8 (amended): if the permission request resolves with anything other than
"granted", the listener is never attached, `permissionGranted` stays false at
every later step of the session (the flow runs once and is never retried), and
the scene shows the waiting-for-orientation-permission state regardless of
location. (The sensors-absent paths — a thrown request or a missing
`requestPermission` function — instead attach the listener as a fallback.) -/
theorem denied_permission_waits_forever (env : OrientationEnv) (s : String)
    (hasLocation : Bool) (t : ℕ)
    (h1 : env.hasRequestPermission = true)
    (h2 : env.outcome = PermissionOutcome.resolves s)
    (h3 : s ≠ "granted") :
    (permissionStateAt env t).listenerAttached = false ∧
    (permissionStateAt env t).permissionGranted = false ∧
    sceneDisplay (permissionStateAt env t).permissionGranted hasLocation =
      SceneDisplay.waitingForOrientation := by
  simp only [permissionStateAt, requestOrientationPermission, h1, h2, if_true,
    if_neg h3, sceneDisplay]
  simp

/-- Witness for C8 (amended) at the concrete resolution "denied". -/
theorem denied_permission_waits_forever_witness :
    (permissionStateAt ⟨true, PermissionOutcome.resolves "denied"⟩ 7).listenerAttached = false ∧
    (permissionStateAt ⟨true, PermissionOutcome.resolves "denied"⟩ 7).permissionGranted = false ∧
    sceneDisplay (permissionStateAt ⟨true, PermissionOutcome.resolves "denied"⟩ 7).permissionGranted true =
      SceneDisplay.waitingForOrientation :=
  denied_permission_waits_forever ⟨true, PermissionOutcome.resolves "denied"⟩ "denied"
    true 7 rfl rfl (by decide)

/-- C9: clicking marker x removes exactly x: x is no longer in the set, every
other id's membership is unchanged, a render pass draws exactly the catalog
markers whose id survives (a missing id is simply skipped), and the click
handler never adds an id, so the removal is one-way. -/
theorem handleObjectClick_removes_exactly_clicked (s : Finset String) (x y : String)
    (hxy : y ≠ x) :
    x ∉ handleObjectClick x s ∧
    (y ∈ handleObjectClick x s ↔ y ∈ s) ∧
    (∀ m, m ∈ renderedMarkers (handleObjectClick x s) ↔
      m ∈ markers ∧ m.id ∈ s ∧ m.id ≠ x) ∧
    (∀ objectId t, handleObjectClick objectId t ⊆ t) := by
  refine ⟨Finset.not_mem_erase x s, ?_, ?_, fun objectId t => Finset.erase_subset objectId t⟩
  · simp [handleObjectClick, Finset.mem_erase, hxy]
  · intro m
    simp only [renderedMarkers, List.mem_filter, handleObjectClick,
      Finset.mem_erase, decide_eq_true_iff]
    tauto

/-- Witness for C9: clicking "obj3" on the initial set, with "obj7" as the
untouched other id, and the render fact instantiated at the "obj3" catalog
entry. -/
theorem handleObjectClick_removes_exactly_clicked_witness :
    "obj3" ∉ handleObjectClick "obj3" initialVisibleObjects ∧
    ("obj7" ∈ handleObjectClick "obj3" initialVisibleObjects ↔
      "obj7" ∈ initialVisibleObjects) ∧
    ((⟨"obj3", 3, 90⟩ : Marker) ∈ renderedMarkers (handleObjectClick "obj3" initialVisibleObjects) ↔
      (⟨"obj3", 3, 90⟩ : Marker) ∈ markers ∧ "obj3" ∈ initialVisibleObjects ∧
        "obj3" ≠ "obj3") := by
  have h := handleObjectClick_removes_exactly_clicked initialVisibleObjects
    "obj3" "obj7" (by decide)
  exact ⟨h.1, h.2.1, h.2.2.1 ⟨"obj3", 3, 90⟩⟩

/-- C10: the visible-marker set starts as exactly {obj1, …, obj10}, the only
mutation (the click handler) never adds an id, and after any sequence of
clicks the set is still a subset of the initial ten. -/
theorem visibleObjects_subset_initial (clicks : List String) :
    initialVisibleObjects =
      {"obj1", "obj2", "obj3", "obj4", "obj5", "obj6", "obj7", "obj8", "obj9",
       "obj10"} ∧
    (∀ objectId s, handleObjectClick objectId s ⊆ s) ∧
    applyClicks clicks initialVisibleObjects ⊆ initialVisibleObjects :=
  ⟨rfl, fun objectId s => Finset.erase_subset objectId s,
   applyClicks_subset clicks initialVisibleObjects⟩

end ARGames
